import Mathlib

/-!
Shallow embedding of the flask REST store API (models/item.py, models/store.py,
models/user.py, security.py, resources/item.py, resources/store.py,
resources/user.py).

The relational store is modelled as three lists of rows plus autoincrement
counters, mirroring the three SQLAlchemy tables (items, stores, users).
The underlying engine is SQLite through SQLAlchemy with its default
configuration (no schema-level name uniqueness; the items.store_id foreign
key is declared but not enforced by the default engine configuration and is
a nullable column), so an insert succeeds regardless of referential links;
deleting a store goes through the ORM's default parent-delete handling of
the `items` relationship (no `cascade='delete'`, no `passive_deletes`): at
flush the unit of work loads the child collection and nulls the children's
`store_id` with an UPDATE before emitting the DELETE of the store row.  A
save can still fail for engine-level reasons, which we model with an
explicit success flag `saveOk` threaded to every handler that calls
`save_to_db`.  A handler body that lets the exception of a failed save
escape (no try/except around `save_to_db`) is modelled as returning
`Except.error ()`; a handler that catches it returns the 500 response the
source builds in its `except:` arm.
-/

/-- A row of the `items` table: id (integer primary key, autoincrement),
name (string ≤80), price (float with 2-digit precision, no arithmetic is
performed on it so we model it as ℚ), store_id (nullable integer FK
column — `none` is SQL NULL, which the ORM writes into orphaned children
when their store is deleted). -/
structure ItemRow where
  id : Nat
  name : String
  price : ℚ
  store_id : Option Int
deriving DecidableEq, Repr

/-- A row of the `stores` table: id (integer primary key, autoincrement),
name (string ≤80). -/
structure StoreRow where
  id : Nat
  name : String
deriving DecidableEq, Repr

/-- A row of the `users` table: id (integer primary key, autoincrement),
username and password (strings ≤80). -/
structure UserRow where
  id : Nat
  username : String
  password : String
deriving DecidableEq, Repr

/-- The persisted state: the three tables plus the autoincrement counter of
each table's integer primary key. -/
structure DB where
  items : List ItemRow
  stores : List StoreRow
  users : List UserRow
  nextItemId : Nat
  nextStoreId : Nat
  nextUserId : Nat
deriving DecidableEq, Repr

/-- The empty database, as created on first run; SQLite autoincrement ids
start at 1. -/
def DB.empty : DB := ⟨[], [], [], 1, 1, 1⟩

/-- `save_to_db` on a fresh `ItemModel` (no persisted id yet): an INSERT
that assigns the next generated primary key.  The handlers always supply a
parsed integer `store_id`, so the stored column value is `some store_id`. -/
def DB.insertItem (db : DB) (name : String) (price : ℚ) (store_id : Int) : DB :=
  {db with items := db.items ++ [⟨db.nextItemId, name, price, some store_id⟩],
           nextItemId := db.nextItemId + 1}

/-- `save_to_db` on a loaded `ItemModel` whose `price`/`store_id`
attributes were reassigned: an UPDATE of those two columns keyed by the
row's primary key. -/
def DB.updateItem (db : DB) (itemId : Nat) (price : ℚ) (store_id : Int) : DB :=
  {db with items := db.items.map (fun r =>
    if r.id = itemId then ⟨r.id, r.name, price, some store_id⟩ else r)}

/-- `delete_from_db` on a loaded `ItemModel`: a DELETE keyed by the row's
primary key. -/
def DB.deleteItem (db : DB) (itemId : Nat) : DB :=
  {db with items := db.items.filter (fun r => r.id != itemId)}

/-- `save_to_db` on a fresh `StoreModel`: an INSERT under the next
generated primary key. -/
def DB.insertStore (db : DB) (name : String) : DB :=
  {db with stores := db.stores ++ [⟨db.nextStoreId, name⟩],
           nextStoreId := db.nextStoreId + 1}

/-- `delete_from_db` on a loaded `StoreModel`.  The store has the
one-to-many `items` relationship with the ORM's default save-update
cascade (no `cascade='delete'`, no `passive_deletes`), so at flush the
unit of work loads the referencing items — even through the
`lazy='dynamic'` collection — and emits `UPDATE items SET store_id=NULL`
for them before the DELETE of the store row keyed by its primary key. -/
def DB.deleteStore (db : DB) (storeId : Nat) : DB :=
  {db with items := db.items.map (fun r =>
      if r.store_id = some (storeId : Int) then ⟨r.id, r.name, r.price, none⟩ else r),
           stores := db.stores.filter (fun r => r.id != storeId)}

/-- `save_to_db` on a fresh `UserModel`: an INSERT under the next
generated primary key, storing username and password exactly as held by
the object. -/
def DB.insertUser (db : DB) (username password : String) : DB :=
  {db with users := db.users ++ [⟨db.nextUserId, username, password⟩],
           nextUserId := db.nextUserId + 1}

/-- `ItemModel.json`: `{'name': self.name, 'price': self.price}` — exactly
the two fields, no id, no store_id. -/
structure ItemJson where
  name : String
  price : ℚ
deriving DecidableEq, Repr

/-- A response body: either a `{'message': ...}` object or a serialized
entity. -/
inductive RespBody where
  | message : String → RespBody
  | itemJson : ItemJson → RespBody
  | storeJson : String → List ItemJson → RespBody
deriving DecidableEq, Repr

/-- A handler response: body plus HTTP status code (flask defaults to 200
when the handler returns no explicit code). -/
structure Resp where
  body : RespBody
  status : Nat
deriving DecidableEq, Repr

namespace ItemModel

/-- `ItemModel.json` from models/item.py. -/
def json (r : ItemRow) : ItemJson := ⟨r.name, r.price⟩

/-- `ItemModel.find_by_name`: `SELECT * FROM items WHERE name=name LIMIT 1`
— the first row whose name matches, if any. -/
def find_by_name (db : DB) (name : String) : Option ItemRow :=
  db.items.find? (fun r => r.name == name)

end ItemModel

namespace StoreModel

/-- `StoreModel.find_by_name`: first stores row whose name matches. -/
def find_by_name (db : DB) (name : String) : Option StoreRow :=
  db.stores.find? (fun r => r.name == name)

/-- `StoreModel.json`: name plus the serialized items whose `store_id`
equals this store's id (the lazy-dynamic `self.items.all()` query, run at
serialization time). -/
def json (db : DB) (s : StoreRow) : RespBody :=
  .storeJson s.name
    ((db.items.filter (fun r => r.store_id == some (s.id : Int))).map ItemModel.json)

end StoreModel

namespace UserModel

/-- `UserModel.find_by_username`: first users row whose username matches. -/
def find_by_username (db : DB) (username : String) : Option UserRow :=
  db.users.find? (fun r => r.username == username)

/-- `UserModel.find_by_id`: first users row whose id matches. -/
def find_by_id (db : DB) (i : Nat) : Option UserRow :=
  db.users.find? (fun r => r.id == i)

end UserModel

/-- `authenticate` from security.py: look the user up by username; if found
and `safe_str_cmp(user.password, password)` (constant-time string equality)
holds, return the user, else fall through returning None. -/
def authenticate (db : DB) (username password : String) : Option UserRow :=
  match UserModel.find_by_username db username with
  | some user => if user.password == password then some user else none
  | none => none

/-- `identity` from security.py: resolve the id claim of a verified token
payload via `UserModel.find_by_id`. -/
def identity (db : DB) (payload_identity : Nat) : Option UserRow :=
  UserModel.find_by_id db payload_identity

namespace Item

/-- `Item.get` from resources/item.py, together with its `@jwt_required()`
gate.  The handler body is translated from the source; the gate itself lives
in the external flask_jwt collaborator, so that part is modelled from the
spec: an unverifiable/missing token rejects the request with a 401 before
the handler body (and hence the item lookup) runs.  `auth` is the resolved
identity: `none` when no valid token accompanied the request. -/
def get (auth : Option Nat) (name : String) (db : DB) : Resp :=
  match auth with
  | none => ⟨.message "Authorization Required", 401⟩
  | some _ =>
    match ItemModel.find_by_name db name with
    | some item => ⟨.itemJson (ItemModel.json item), 200⟩
    | none => ⟨.message "Item not found", 404⟩

/-- `Item.post` from resources/item.py, on the parse-success path (`price`
and `store_id` present and well-typed).  Duplicate name → 400 before any
write.  Otherwise a new `ItemModel(name, price, store_id)` is saved inside
`try:`, so a failed save is caught and answered with the 500 message; a
successful save inserts the row under a fresh generated id. -/
def post (saveOk : Bool) (name : String) (price : ℚ) (store_id : Int) (db : DB) :
    Except Unit (DB × Resp) :=
  match ItemModel.find_by_name db name with
  | some _ =>
    .ok (db, ⟨.message ("An item with name " ++ name ++ " already exists."), 400⟩)
  | none =>
    if saveOk then
      .ok (db.insertItem name price store_id, ⟨.itemJson ⟨name, price⟩, 201⟩)
    else
      .ok (db, ⟨.message "An error occurred when inserting the item.", 500⟩)

/-- `Item.delete` from resources/item.py: delete the first row bearing the
name when one exists (SQLAlchemy deletes that object's row, keyed by its
primary key); in every case answer `{'message': 'Item deleted'}` with the
default 200. -/
def delete (name : String) (db : DB) : DB × Resp :=
  match ItemModel.find_by_name db name with
  | some item => (db.deleteItem item.id, ⟨.message "Item deleted", 200⟩)
  | none => (db, ⟨.message "Item deleted", 200⟩)

/-- `Item.put` from resources/item.py, on the parse-success path.  If no
item bears the name, a new `ItemModel(name, price, store_id)` is built;
otherwise the loaded object's `price` and `store_id` attributes are
reassigned and `save_to_db` issues an UPDATE keyed by the row's primary
key.  The `save_to_db()` call is NOT wrapped in try/except here, so a
failed save propagates out of the handler (`Except.error`). -/
def put (saveOk : Bool) (name : String) (price : ℚ) (store_id : Int) (db : DB) :
    Except Unit (DB × Resp) :=
  match ItemModel.find_by_name db name with
  | none =>
    if saveOk then
      .ok (db.insertItem name price store_id, ⟨.itemJson ⟨name, price⟩, 201⟩)
    else .error ()
  | some item =>
    if saveOk then
      .ok (db.updateItem item.id price store_id, ⟨.itemJson ⟨item.name, price⟩, 201⟩)
    else .error ()

end Item

namespace Store

/-- `Store.get` from resources/store.py: serialized store (with nested
items) when found, else 404.  Unprotected. -/
def get (name : String) (db : DB) : Resp :=
  match StoreModel.find_by_name db name with
  | some store => ⟨StoreModel.json db store, 200⟩
  | none => ⟨.message "Store not found", 404⟩

/-- `Store.post` from resources/store.py: duplicate name → 400; otherwise
`StoreModel(name)` is saved inside `try:`, a failed save is caught and
answered 500, a successful save inserts the row under a fresh id and
answers `store.json(), 201` — the serialization runs its live
`self.items.all()` query on the post-insert state, so it lists any items
already referencing the freshly generated store id. -/
def post (saveOk : Bool) (name : String) (db : DB) : Except Unit (DB × Resp) :=
  match StoreModel.find_by_name db name with
  | some _ =>
    .ok (db, ⟨.message ("A store with name " ++ name ++ " already exists."), 400⟩)
  | none =>
    if saveOk then
      .ok (db.insertStore name,
           ⟨StoreModel.json (db.insertStore name) ⟨db.nextStoreId, name⟩, 201⟩)
    else
      .ok (db, ⟨.message "An error occured while creating the store", 500⟩)

/-- `Store.delete` from resources/store.py: delete the found store's row if
any (the default engine configuration performs the DELETE without checking
referencing items); in every case answer `{'message': 'Store deleted'}`. -/
def delete (name : String) (db : DB) : DB × Resp :=
  match StoreModel.find_by_name db name with
  | some store => (db.deleteStore store.id, ⟨.message "Store deleted", 200⟩)
  | none => (db, ⟨.message "Store deleted", 200⟩)

end Store

namespace UserRegister

/-- `UserRegister.post` from resources/user.py, on the parse-success path
(`username`/`password` both present).  Taken username → 400 before any
write.  Otherwise `UserModel(username, password)` — which stores the
password string exactly as supplied, models/user.py applies no hashing —
is saved by a bare `user.save_to_db()` with no try/except, so a failed
save propagates out of the handler. -/
def post (saveOk : Bool) (username password : String) (db : DB) :
    Except Unit (DB × Resp) :=
  match UserModel.find_by_username db username with
  | some _ =>
    .ok (db, ⟨.message "A user with that username already exists", 400⟩)
  | none =>
    if saveOk then
      .ok (db.insertUser username password, ⟨.message "User created successfully", 201⟩)
    else .error ()

end UserRegister

/-- Does a handler outcome consist of a caught-and-converted server error
(status 500 response), as opposed to a propagated exception or a normal
response? -/
def isServerError : Except Unit (DB × Resp) → Bool
  | .ok (_, r) => r.status == 500
  | .error _ => false

/-! ### Concrete fixtures used by counterexamples and witnesses -/

/-- A database holding a single user bob with (plaintext) password pw. -/
def dbBob : DB := ⟨[], [], [⟨1, "bob", "pw"⟩], 1, 1, 2⟩

/-- A database holding one store S (id 1) and one item X referencing it. -/
def dbS : DB := ⟨[⟨1, "X", 3/2, some 1⟩], [⟨1, "S"⟩], [], 2, 2, 1⟩

/-- A database holding a single item A (id 1, price 9.99, store_id 1). -/
def dbA : DB := ⟨[⟨1, "A", 999/100, some 1⟩], [], [], 2, 1, 1⟩

/-! ### Helper lemmas about the lookup primitives -/

/-- A successful `ItemModel.find_by_name` returns a row of the items table
bearing the requested name. -/
theorem item_find_by_name_spec {db : DB} {name : String} {it : ItemRow}
    (h : ItemModel.find_by_name db name = some it) :
    it ∈ db.items ∧ it.name = name := by
  unfold ItemModel.find_by_name at h
  exact ⟨List.mem_of_find?_eq_some h, by simpa using List.find?_some h⟩

/-- A successful `StoreModel.find_by_name` returns a row of the stores
table bearing the requested name. -/
theorem store_find_by_name_spec {db : DB} {name : String} {s : StoreRow}
    (h : StoreModel.find_by_name db name = some s) :
    s ∈ db.stores ∧ s.name = name := by
  unfold StoreModel.find_by_name at h
  exact ⟨List.mem_of_find?_eq_some h, by simpa using List.find?_some h⟩

/-- Looking a fresh name up after the corresponding insert finds the newly
inserted row. -/
theorem ItemModel.find_by_name_insert {db : DB} {name : String}
    (price : ℚ) (sid : Int) (h : ItemModel.find_by_name db name = none) :
    ItemModel.find_by_name (db.insertItem name price sid) name =
      some ⟨db.nextItemId, name, price, some sid⟩ := by
  unfold ItemModel.find_by_name at h ⊢
  unfold DB.insertItem
  simp [List.find?_append, h]

/-! ### C1 — persistence failure at the save step -/

/-- C1 counterexample: the claim says every persisting handler (Item.post,
Item.put, Store.post, UserRegister.post) catches a failed save and answers
500.  On a failed save, `Item.put` and `UserRegister.post` instead let the
exception escape: at the concrete inputs below neither produces a server
error response — the raw failure propagates. -/
theorem c1_counterexample :
    Item.put false "A" (999/100) 1 DB.empty = .error () ∧
    isServerError (Item.put false "A" (999/100) 1 DB.empty) = false ∧
    UserRegister.post false "bob" "pw" DB.empty = .error () ∧
    isServerError (UserRegister.post false "bob" "pw" DB.empty) = false :=
  ⟨rfl, rfl, rfl, rfl⟩

/-- C1 amended: when the save step fails, `Item.post` and `Store.post`
catch the failure and answer a generic 500 message with the state
unchanged, but `Item.put` and `UserRegister.post` have no try/except
around `save_to_db` and propagate the raw failure to the caller. -/
theorem c1_save_failure_boundary (name : String) (price : ℚ) (sid : Int)
    (username pw : String) (db : DB)
    (hni : ItemModel.find_by_name db name = none)
    (hns : StoreModel.find_by_name db name = none)
    (hnu : UserModel.find_by_username db username = none) :
    Item.post false name price sid db =
      .ok (db, ⟨.message "An error occurred when inserting the item.", 500⟩) ∧
    Store.post false name db =
      .ok (db, ⟨.message "An error occured while creating the store", 500⟩) ∧
    Item.put false name price sid db = .error () ∧
    UserRegister.post false username pw db = .error () := by
  refine ⟨?_, ?_, ?_, ?_⟩
  · simp [Item.post, hni]
  · simp [Store.post, hns]
  · simp [Item.put, hni]
  · simp [UserRegister.post, hnu]

/-- C1 witness: the amended behaviour at concrete inputs on the empty
database. -/
theorem c1_save_failure_boundary_witness :
    Item.post false "A" 10 1 DB.empty =
      .ok (DB.empty, ⟨.message "An error occurred when inserting the item.", 500⟩) ∧
    Store.post false "A" DB.empty =
      .ok (DB.empty, ⟨.message "An error occured while creating the store", 500⟩) ∧
    Item.put false "A" 10 1 DB.empty = .error () ∧
    UserRegister.post false "bob" "pw" DB.empty = .error () :=
  c1_save_failure_boundary "A" 10 1 "bob" "pw" DB.empty rfl rfl rfl

/-! ### C2 — referential integrity -/

/-- C2 counterexample: the claim says an `Item.post` naming no existing
store is rejected and a `Store.delete` on a referenced store is rejected.
On the empty database (zero stores) `Item.post` persists an item with
`store_id = 99` and answers 201, and on a database where item X references
store S, `Store.delete` is not rejected either: the ORM nulls X's
`store_id`, removes the store and answers the normal acknowledgement,
leaving X orphaned with a NULL store_id. -/
theorem c2_counterexample :
    Item.post true "chair" 10 99 DB.empty =
      .ok (⟨[⟨1, "chair", 10, some 99⟩], [], [], 2, 1, 1⟩,
           ⟨.itemJson ⟨"chair", 10⟩, 201⟩) ∧
    (⟨[⟨1, "chair", 10, some 99⟩], [], [], 2, 1, 1⟩ : DB).stores = [] ∧
    Store.delete "S" dbS =
      (⟨[⟨1, "X", 3/2, none⟩], [], [], 2, 2, 1⟩, ⟨.message "Store deleted", 200⟩) ∧
    (⟨1, "X", 3/2, none⟩ : ItemRow).store_id = none :=
  ⟨rfl, rfl, rfl, rfl⟩

/-- C2 amended: neither handler checks referential integrity.  With a
fresh name and a successful save, `Item.post` inserts the item and answers
201 whatever `store_id` was supplied and whatever `db.stores` contains;
`Store.delete` is never rejected: it answers the acknowledgement, deletes
a found store even when items reference it, deletes no item, and — per
the ORM's default parent-delete handling — sets the `store_id` of every
item that referenced the deleted store to NULL, leaving those items
orphaned.  No rejection comes from the engine either, since the children
are detached before the DELETE. -/
theorem c2_no_referential_check (name : String) (price : ℚ) (sid : Int) (db : DB)
    (h : ItemModel.find_by_name db name = none) :
    Item.post true name price sid db =
      .ok (db.insertItem name price sid, ⟨.itemJson ⟨name, price⟩, 201⟩) ∧
    (Store.delete name db).2 = ⟨.message "Store deleted", 200⟩ ∧
    (Store.delete name db).1.items.length = db.items.length ∧
    (Store.delete name db).1.users = db.users ∧
    (∀ st, StoreModel.find_by_name db name = some st →
       (Store.delete name db).1.items = db.items.map (fun r =>
         if r.store_id = some (st.id : Int) then ⟨r.id, r.name, r.price, none⟩ else r)) := by
  refine ⟨by simp [Item.post, h], ?_, ?_, ?_, ?_⟩
  · cases hs : StoreModel.find_by_name db name <;> simp [Store.delete, hs]
  · cases hs : StoreModel.find_by_name db name <;> simp [Store.delete, hs, DB.deleteStore]
  · cases hs : StoreModel.find_by_name db name <;> simp [Store.delete, hs, DB.deleteStore]
  · intro st hst
    simp [Store.delete, hst, DB.deleteStore]

/-- C2 witness: the amended behaviour at a concrete input — posting an
item that references the nonexistent store 99 onto the database holding
store S, and deleting store S while item X references it: X survives with
its store_id nulled. -/
theorem c2_no_referential_check_witness :
    Item.post true "S" 10 99 dbS =
      .ok (dbS.insertItem "S" 10 99, ⟨.itemJson ⟨"S", 10⟩, 201⟩) ∧
    (Store.delete "S" dbS).2 = ⟨.message "Store deleted", 200⟩ ∧
    (Store.delete "S" dbS).1.items.length = dbS.items.length ∧
    (Store.delete "S" dbS).1.users = dbS.users ∧
    (Store.delete "S" dbS).1.items = dbS.items.map (fun r =>
       if r.store_id = some ((1 : Nat) : Int) then ⟨r.id, r.name, r.price, none⟩ else r) :=
  ⟨(c2_no_referential_check "S" 10 99 dbS rfl).1,
   (c2_no_referential_check "S" 10 99 dbS rfl).2.1,
   (c2_no_referential_check "S" 10 99 dbS rfl).2.2.1,
   (c2_no_referential_check "S" 10 99 dbS rfl).2.2.2.1,
   (c2_no_referential_check "S" 10 99 dbS rfl).2.2.2.2 ⟨1, "S"⟩ rfl⟩

/-! ### C3 — password storage -/

/-- C3 counterexample: the claim says the password is stored hashed, never
as the supplied plaintext.  Registering bob with password hunter2 on the
empty database stores the row `⟨1, bob, hunter2⟩` — the password column
holds exactly the plaintext supplied. -/
theorem c3_counterexample :
    UserRegister.post true "bob" "hunter2" DB.empty =
      .ok (⟨[], [], [⟨1, "bob", "hunter2"⟩], 1, 1, 2⟩,
           ⟨.message "User created successfully", 201⟩) ∧
    (⟨1, "bob", "hunter2"⟩ : UserRow).password = "hunter2" :=
  ⟨rfl, rfl⟩

/-- C3 amended: `UserModel.__init__` applies no hashing — registration
stores the password string verbatim — and `authenticate` compares the
provided password against that stored plaintext by (constant-time) string
equality. -/
theorem c3_plaintext_password (username pw : String) (db : DB) :
    (UserModel.find_by_username db username = none →
      UserRegister.post true username pw db =
        .ok (db.insertUser username pw, ⟨.message "User created successfully", 201⟩)) ∧
    (∀ usr, UserModel.find_by_username db username = some usr →
       authenticate db username pw = if usr.password = pw then some usr else none) := by
  refine ⟨fun h => by simp [UserRegister.post, h], ?_⟩
  intro usr husr
  unfold authenticate
  rw [husr]
  by_cases hp : usr.password = pw <;> simp [hp]

/-- C3 witness: the amended behaviour at concrete inputs — registering bob
on the empty database stores pw verbatim, and authenticating bob against
the stored plaintext succeeds exactly on string equality. -/
theorem c3_plaintext_password_witness :
    UserRegister.post true "bob" "pw" DB.empty =
      .ok (DB.empty.insertUser "bob" "pw", ⟨.message "User created successfully", 201⟩) ∧
    authenticate dbBob "bob" "pw" = if ("pw" : String) = "pw" then some ⟨1, "bob", "pw"⟩ else none :=
  ⟨(c3_plaintext_password "bob" "pw" DB.empty).1 rfl,
   (c3_plaintext_password "bob" "pw" dbBob).2 ⟨1, "bob", "pw"⟩ rfl⟩

/-! ### C4 — Item.put is an upsert -/

/-- C4: `Item.put` parses `price`/`store_id` and behaves as an upsert:
with no item under the name it inserts a new one with the given price and
store_id; with an existing item it updates that row's price and store_id
in place; both branches persist through the same `save_to_db` path and
answer the serialized item with 201. -/
theorem c4_put_upsert (name : String) (price : ℚ) (sid : Int) (db : DB) :
    (ItemModel.find_by_name db name = none →
      Item.put true name price sid db =
        .ok (db.insertItem name price sid, ⟨.itemJson ⟨name, price⟩, 201⟩)) ∧
    (∀ it, ItemModel.find_by_name db name = some it →
      Item.put true name price sid db =
        .ok (db.updateItem it.id price sid, ⟨.itemJson ⟨name, price⟩, 201⟩)) := by
  constructor
  · intro h
    simp [Item.put, h]
  · intro it h
    have hname := (item_find_by_name_spec h).2
    simp [Item.put, h, hname]

/-- C4 witness: the create branch on the empty database and the update
branch on a database already holding item A. -/
theorem c4_put_upsert_witness :
    Item.put true "A" (999/100) 1 DB.empty =
      .ok (DB.empty.insertItem "A" (999/100) 1, ⟨.itemJson ⟨"A", 999/100⟩, 201⟩) ∧
    Item.put true "A" 5 2 dbA =
      .ok (dbA.updateItem 1 5 2, ⟨.itemJson ⟨"A", 5⟩, 201⟩) :=
  ⟨(c4_put_upsert "A" (999/100) 1 DB.empty).1 rfl,
   (c4_put_upsert "A" 5 2 dbA).2 ⟨1, "A", 999/100, some 1⟩ rfl⟩

/-! ### C5 — authenticate -/

/-- C5: `authenticate` returns the stored user exactly when a user with
the username exists and the supplied password equals the stored value; on
an unknown username or a mismatch it returns absence, and an unknown
username is an ordinary `none` outcome, not an error. -/
theorem c5_authenticate_correct (db : DB) (username password : String) :
    (∀ usr, authenticate db username password = some usr ↔
       (UserModel.find_by_username db username = some usr ∧
        usr.password = password)) ∧
    (UserModel.find_by_username db username = none →
       authenticate db username password = none) := by
  constructor
  · intro usr
    unfold authenticate
    cases h : UserModel.find_by_username db username with
    | none => simp
    | some u =>
      simp only [beq_iff_eq, Option.some.injEq]
      by_cases hp : u.password = password
      · simp only [hp, if_true, Option.some.injEq]
        constructor
        · rintro rfl
          exact ⟨rfl, hp⟩
        · rintro ⟨rfl, _⟩
          rfl
      · simp only [hp, if_false]
        constructor
        · rintro ⟨⟩
        · rintro ⟨rfl, h2⟩
          exact absurd h2 hp
  · intro h
    unfold authenticate
    rw [h]

/-- C5 witness: on the database holding bob/pw, the right credentials
return bob, a wrong password returns absence, and an unknown username
returns absence. -/
theorem c5_authenticate_correct_witness :
    authenticate dbBob "bob" "pw" = some ⟨1, "bob", "pw"⟩ ∧
    authenticate dbBob "bob" "wrong" = none ∧
    authenticate dbBob "alice" "pw" = none :=
  ⟨((c5_authenticate_correct dbBob "bob" "pw").1 ⟨1, "bob", "pw"⟩).mpr ⟨rfl, rfl⟩,
   rfl,
   (c5_authenticate_correct dbBob "alice" "pw").2 rfl⟩

/-! ### C6 — Item.post uniqueness conflict -/

/-- C6: when an item with the name already exists, `Item.post` answers the
409-style conflict (status 400) and leaves the state unchanged; in
particular, a successful create followed by a second identical POST yields
400 on the second call with no second item created. -/
theorem c6_post_conflict (name : String) (price : ℚ) (sid : Int) (db : DB) :
    (∀ it, ItemModel.find_by_name db name = some it → ∀ saveOk,
       Item.post saveOk name price sid db =
         .ok (db, ⟨.message ("An item with name " ++ name ++ " already exists."), 400⟩)) ∧
    (ItemModel.find_by_name db name = none →
       Item.post true name price sid db =
         .ok (db.insertItem name price sid, ⟨.itemJson ⟨name, price⟩, 201⟩) ∧
       Item.post true name price sid (db.insertItem name price sid) =
         .ok (db.insertItem name price sid,
              ⟨.message ("An item with name " ++ name ++ " already exists."), 400⟩)) := by
  constructor
  · intro it h saveOk
    simp [Item.post, h]
  · intro h
    refine ⟨by simp [Item.post, h], ?_⟩
    have hf := ItemModel.find_by_name_insert price sid h
    simp [Item.post, hf]

/-- C6 witness: a conflict on the pre-existing item A, and the
create-then-duplicate scenario for item B, both on concrete databases. -/
theorem c6_post_conflict_witness :
    Item.post true "A" 2 1 dbA =
      .ok (dbA, ⟨.message ("An item with name " ++ "A" ++ " already exists."), 400⟩) ∧
    Item.post true "B" 2 1 dbA =
      .ok (dbA.insertItem "B" 2 1, ⟨.itemJson ⟨"B", 2⟩, 201⟩) ∧
    Item.post true "B" 2 1 (dbA.insertItem "B" 2 1) =
      .ok (dbA.insertItem "B" 2 1,
           ⟨.message ("An item with name " ++ "B" ++ " already exists."), 400⟩) :=
  ⟨(c6_post_conflict "A" 2 1 dbA).1 ⟨1, "A", 999/100, some 1⟩ rfl true,
   ((c6_post_conflict "B" 2 1 dbA).2 rfl).1,
   ((c6_post_conflict "B" 2 1 dbA).2 rfl).2⟩

/-! ### C7 — create/get round trip and serialized shape -/

/-- C7: creating a fresh item via `Item.post` and then reading it back via
an authenticated `Item.get` returns the serialized form holding exactly
the name and price (`ItemJson` has no other field, so neither `store_id`
nor `id` is echoed). -/
theorem c7_roundtrip (name : String) (price : ℚ) (sid : Int) (uid : Nat) (db : DB)
    (h : ItemModel.find_by_name db name = none) :
    Item.post true name price sid db =
      .ok (db.insertItem name price sid, ⟨.itemJson ⟨name, price⟩, 201⟩) ∧
    Item.get (some uid) name (db.insertItem name price sid) =
      ⟨.itemJson ⟨name, price⟩, 200⟩ := by
  refine ⟨by simp [Item.post, h], ?_⟩
  have hf := ItemModel.find_by_name_insert price sid h
  simp [Item.get, hf, ItemModel.json]

/-- C7 witness: the round trip for `{name: A, price: 9.99, store_id: 1}`
on the empty database. -/
theorem c7_roundtrip_witness :
    Item.post true "A" (999/100) 1 DB.empty =
      .ok (DB.empty.insertItem "A" (999/100) 1, ⟨.itemJson ⟨"A", 999/100⟩, 201⟩) ∧
    Item.get (some 7) "A" (DB.empty.insertItem "A" (999/100) 1) =
      ⟨.itemJson ⟨"A", 999/100⟩, 200⟩ :=
  c7_roundtrip "A" (999/100) 1 7 DB.empty rfl

/-! ### C8 — delete idempotence -/

/-- After deleting the row found under a name, no row bears that name any
more — provided the name identified at most one row, which the handlers'
check-then-insert discipline maintains sequentially. -/
theorem ItemModel.find_by_name_deleteItem {db : DB} {name : String} {it : ItemRow}
    (h : ItemModel.find_by_name db name = some it)
    (huniq : ∀ r ∈ db.items, ∀ s ∈ db.items, r.name = name → s.name = name → r = s) :
    ItemModel.find_by_name (db.deleteItem it.id) name = none := by
  obtain ⟨hmem, hname⟩ := item_find_by_name_spec h
  unfold ItemModel.find_by_name DB.deleteItem
  rw [List.find?_eq_none]
  intro r hr
  simp only [List.mem_filter] at hr
  obtain ⟨hrmem, hrid⟩ := hr
  simp only [beq_iff_eq]
  intro hrn
  have hre : r = it := huniq r hrmem it hmem hrn hname
  simp [hre] at hrid

/-- Store analogue of `ItemModel.find_by_name_deleteItem`. -/
theorem StoreModel.find_by_name_deleteStore {db : DB} {name : String} {st : StoreRow}
    (h : StoreModel.find_by_name db name = some st)
    (huniq : ∀ r ∈ db.stores, ∀ s ∈ db.stores, r.name = name → s.name = name → r = s) :
    StoreModel.find_by_name (db.deleteStore st.id) name = none := by
  obtain ⟨hmem, hname⟩ := store_find_by_name_spec h
  unfold StoreModel.find_by_name DB.deleteStore
  rw [List.find?_eq_none]
  intro r hr
  simp only [List.mem_filter] at hr
  obtain ⟨hrmem, hrid⟩ := hr
  simp only [beq_iff_eq]
  intro hrn
  have hre : r = st := huniq r hrmem st hmem hrn hname
  simp [hre] at hrid

/-- C8: `Item.delete` and `Store.delete` always answer the
deletion-acknowledged message (status 200) whether or not the entity
exists, and — as long as the name identifies at most one row of its table
— repeating the same delete leaves the state of the first delete
untouched while returning the same acknowledgement. -/
theorem c8_delete_idempotent (name : String) (db : DB)
    (hi : ∀ r ∈ db.items, ∀ s ∈ db.items, r.name = name → s.name = name → r = s)
    (hs : ∀ r ∈ db.stores, ∀ s ∈ db.stores, r.name = name → s.name = name → r = s) :
    (Item.delete name db).2 = ⟨.message "Item deleted", 200⟩ ∧
    Item.delete name (Item.delete name db).1 =
      ((Item.delete name db).1, ⟨.message "Item deleted", 200⟩) ∧
    (Store.delete name db).2 = ⟨.message "Store deleted", 200⟩ ∧
    Store.delete name (Store.delete name db).1 =
      ((Store.delete name db).1, ⟨.message "Store deleted", 200⟩) := by
  refine ⟨?_, ?_, ?_, ?_⟩
  · cases hf : ItemModel.find_by_name db name <;> simp [Item.delete, hf]
  · cases hf : ItemModel.find_by_name db name with
    | none => simp [Item.delete, hf]
    | some it =>
      have h2 := ItemModel.find_by_name_deleteItem hf hi
      simp [Item.delete, hf, h2]
  · cases hf : StoreModel.find_by_name db name <;> simp [Store.delete, hf]
  · cases hf : StoreModel.find_by_name db name with
    | none => simp [Store.delete, hf]
    | some st =>
      have h2 := StoreModel.find_by_name_deleteStore hf hs
      simp [Store.delete, hf, h2]

/-- C8 witness: deleting item A twice on the database holding it, and
deleting store S twice on the database holding it. -/
theorem c8_delete_idempotent_witness :
    (Item.delete "A" dbA).2 = ⟨.message "Item deleted", 200⟩ ∧
    Item.delete "A" (Item.delete "A" dbA).1 =
      ((Item.delete "A" dbA).1, ⟨.message "Item deleted", 200⟩) ∧
    (Store.delete "S" dbS).2 = ⟨.message "Store deleted", 200⟩ ∧
    Store.delete "S" (Store.delete "S" dbS).1 =
      ((Store.delete "S" dbS).1, ⟨.message "Store deleted", 200⟩) := by
  refine ⟨(c8_delete_idempotent "A" dbA ?_ ?_).1,
          (c8_delete_idempotent "A" dbA ?_ ?_).2.1,
          (c8_delete_idempotent "S" dbS ?_ ?_).2.2.1,
          (c8_delete_idempotent "S" dbS ?_ ?_).2.2.2⟩ <;>
    intro r hr s hs _ _ <;>
    simp only [dbA, dbS, List.mem_singleton, List.mem_nil_iff] at hr hs <;>
    simp [hr, hs]

/-! ### C9 — the auth gate on Item.get -/

/-- C9: without a resolved identity `Item.get` answers 401, and does so
uniformly in the database state — the item lookup plays no part in the
response; with an identity it answers the serialized item (200) when the
item exists and the not-found message (404) otherwise. -/
theorem c9_get_auth_gate (name : String) (db : DB) :
    Item.get none name db = ⟨.message "Authorization Required", 401⟩ ∧
    (∀ db2, Item.get none name db2 = Item.get none name db) ∧
    (∀ uid it, ItemModel.find_by_name db name = some it →
       Item.get (some uid) name db = ⟨.itemJson ⟨it.name, it.price⟩, 200⟩) ∧
    (∀ uid, ItemModel.find_by_name db name = none →
       Item.get (some uid) name db = ⟨.message "Item not found", 404⟩) := by
  refine ⟨rfl, fun db2 => rfl, ?_, ?_⟩
  · intro uid it h
    simp [Item.get, h, ItemModel.json]
  · intro uid h
    simp [Item.get, h]

/-- C9 witness: on the database holding item A — no identity gives 401,
an identity gives 200 for A and 404 for the absent Z. -/
theorem c9_get_auth_gate_witness :
    Item.get none "A" dbA = ⟨.message "Authorization Required", 401⟩ ∧
    Item.get (some 1) "A" dbA = ⟨.itemJson ⟨"A", 999/100⟩, 200⟩ ∧
    Item.get (some 1) "Z" dbA = ⟨.message "Item not found", 404⟩ :=
  ⟨(c9_get_auth_gate "A" dbA).1,
   (c9_get_auth_gate "A" dbA).2.2.1 1 ⟨1, "A", 999/100, some 1⟩ rfl,
   (c9_get_auth_gate "Z" dbA).2.2.2 1 rfl⟩

/-! ### C10 — frame property of Item.put on an existing item -/

/-- C10: when an item already bears the name, `Item.put` touches only that
row's price and store_id — every row keeps its id and name, rows with a
different id are untouched, and the stores table, users table and all
id counters are unchanged. -/
theorem c10_put_frame (name : String) (price : ℚ) (sid : Int) (db : DB) (it : ItemRow)
    (h : ItemModel.find_by_name db name = some it) :
    Item.put true name price sid db =
      .ok (db.updateItem it.id price sid, ⟨.itemJson ⟨it.name, price⟩, 201⟩) ∧
    (db.updateItem it.id price sid).stores = db.stores ∧
    (db.updateItem it.id price sid).users = db.users ∧
    (db.updateItem it.id price sid).nextItemId = db.nextItemId ∧
    (db.updateItem it.id price sid).nextStoreId = db.nextStoreId ∧
    (db.updateItem it.id price sid).nextUserId = db.nextUserId ∧
    (db.updateItem it.id price sid).items = db.items.map (fun r =>
       if r.id = it.id then ⟨r.id, r.name, price, some sid⟩ else r) ∧
    (∀ r ∈ db.items, r.id ≠ it.id → r ∈ (db.updateItem it.id price sid).items) ∧
    (∀ r ∈ (db.updateItem it.id price sid).items,
       ∃ s ∈ db.items, r.id = s.id ∧ r.name = s.name) := by
  refine ⟨by simp [Item.put, h], rfl, rfl, rfl, rfl, rfl, rfl, ?_, ?_⟩
  · intro r hr hne
    unfold DB.updateItem
    simp only [List.mem_map]
    exact ⟨r, hr, by simp [hne]⟩
  · intro r hr
    unfold DB.updateItem at hr
    simp only [List.mem_map] at hr
    obtain ⟨s, hsmem, hseq⟩ := hr
    by_cases hid : s.id = it.id
    · refine ⟨s, hsmem, ?_⟩
      rw [← hseq]
      simp [hid]
    · refine ⟨s, hsmem, ?_⟩
      rw [← hseq]
      simp [hid]

/-- C10 witness: updating the existing item A leaves the stores and users
tables as they were. -/
theorem c10_put_frame_witness :
    Item.put true "A" 5 2 dbA =
      .ok (dbA.updateItem 1 5 2, ⟨.itemJson ⟨"A", 5⟩, 201⟩) ∧
    (dbA.updateItem 1 5 2).stores = dbA.stores ∧
    (dbA.updateItem 1 5 2).users = dbA.users :=
  ⟨(c10_put_frame "A" 5 2 dbA ⟨1, "A", 999/100, some 1⟩ rfl).1,
   (c10_put_frame "A" 5 2 dbA ⟨1, "A", 999/100, some 1⟩ rfl).2.1,
   (c10_put_frame "A" 5 2 dbA ⟨1, "A", 999/100, some 1⟩ rfl).2.2.1⟩
